import Mathlib

/-!
Verification of the FaceForge desktop service orchestrator
(`desktop/src-tauri/src/{orchestrator,main,settings,ports}.rs`).

The Rust code is shallowly embedded: filesystem, OS process and network
effects are passed in explicitly as oracle values (an existence predicate
for paths, a poll result for `Child::try_wait`, a spawn outcome, a port
openness predicate, timestamps in milliseconds).  Each Lean definition
mirrors one Rust item and keeps its name.
-/

namespace FaceForge

/-- Filesystem paths, modelled as their component lists (the Rust code never
normalises paths, so `".."` is an ordinary component). -/
abbrev Path := List String

/-- Mirrors `settings.rs` `WizardSettings` (plus the `max_log_size_mb` field that
`orchestrator.rs` reads from it). Ports are `Nat` standing for `u16`. -/
structure WizardSettings where
  faceforge_home : Path
  core_port : Nat
  seaweed_enabled : Bool
  seaweed_s3_port : Option Nat
  seaweed_weed_path : Option Path
  max_log_size_mb : Nat
  deriving DecidableEq, Repr

/-- Orchestrator state (`orchestrator.rs` `struct Orchestrator`); a child
process handle is its pid. -/
structure Orchestrator where
  repo_root : Path
  core_child : Option Nat
  seaweed_child : Option Nat
  last_seaweed_error : Option String
  last_core_start : Option Nat
  core_restart_attempts : Nat
  deriving DecidableEq, Repr

/-- Outcome of one `Child::try_wait()` call. -/
inductive PollResult where
  | exitedSome
  | stillRunning
  | pollError
  deriving DecidableEq, Repr

/-- Mirrors `Orchestrator::is_core_running` — clears the slot when the child has
exited; a poll error reports `false` but leaves the handle in place. -/
def is_core_running (o : Orchestrator) (poll : PollResult) : Orchestrator × Bool :=
  match o.core_child with
  | none => (o, false)
  | some _ =>
    match poll with
    | .exitedSome => ({ o with core_child := none }, false)
    | .stillRunning => (o, true)
    | .pollError => (o, false)

/-- Mirrors `Orchestrator::is_seaweed_running` (same shape as the core variant). -/
def is_seaweed_running (o : Orchestrator) (poll : PollResult) : Orchestrator × Bool :=
  match o.seaweed_child with
  | none => (o, false)
  | some _ =>
    match poll with
    | .exitedSome => ({ o with seaweed_child := none }, false)
    | .stillRunning => (o, true)
    | .pollError => (o, false)

/-- Mirrors `Orchestrator::stop_core` — `take` the handle, `kill` and `wait` with
results discarded (`let _ = ...`); the two booleans are those discarded
outcomes. Returns no error by type. -/
def stop_core (o : Orchestrator) (killOk waitOk : Bool) : Orchestrator :=
  match o.core_child with
  | none => o
  | some _ =>
    let _ := killOk
    let _ := waitOk
    { o with core_child := none }

/-- Mirrors `Orchestrator::stop_seaweed` — identical shape on the seaweed slot. -/
def stop_seaweed (o : Orchestrator) (killOk waitOk : Bool) : Orchestrator :=
  match o.seaweed_child with
  | none => o
  | some _ =>
    let _ := killOk
    let _ := waitOk
    { o with seaweed_child := none }

/-- The backoff expression of `tick_health_and_maybe_restart`
(`500u64 * (1u64 << attempts)`), with u64 wrap-around made explicit. -/
def backoff_ms (attempts : Nat) : Nat :=
  (500 * ((1 <<< (attempts % 64)) % 2 ^ 64)) % 2 ^ 64

/-- Environment for one `start_core` call: outcomes of `write_ports`, binary
resolution (venv python or sidecar), `create_dir_all`/`prepare_log_file`,
the `spawn` result (`some pid` on success), the `Instant::now()` timestamp,
and the `try_wait` poll used by the leading `is_core_running` check. -/
structure CoreStartEnv where
  corePoll : PollResult
  writePortsOk : Bool
  resolveOk : Bool
  prepareLogOk : Bool
  spawnResult : Option Nat
  now : Nat
  deriving DecidableEq, Repr

/-- Mirrors `Orchestrator::start_core`.  Early-returns `Ok` when already running;
otherwise writes the ports file, resolves the binary, prepares the log sink
and spawns; on success stores the handle, refreshes `last_core_start` and
resets `core_restart_attempts` to 0.  Error paths leave the state as the
leading liveness check left it. -/
def start_core (o : Orchestrator) (env : CoreStartEnv) :
    Orchestrator × Except String Unit :=
  let p := is_core_running o env.corePoll
  if p.2 then (p.1, .ok ()) else
  let o := p.1
  if !env.writePortsOk then (o, .error "write_ports failed") else
  if !env.resolveOk then
    (o, .error "Core executable sidecar not found (and .venv missing).")
  else
  if !env.prepareLogOk then (o, .error "prepare_log_file failed") else
  match env.spawnResult with
  | none => (o, .error "Failed to start Core")
  | some pid =>
    ({ o with
        core_child := some pid
        last_core_start := some env.now
        core_restart_attempts := 0 }, .ok ())

/-- Rendering of a path for error messages (`to_string_lossy`), abstracted
as slash-joined components. -/
def Path.render (p : Path) : String := String.intercalate "/" p

/-- The three fixed tools directories probed by `weed_candidates`
(install root, packaged-resources-relative, dev-layout-relative). -/
def tools_dirs (root : Path) : List Path :=
  [root ++ ["tools"],
   root ++ ["desktop", "src-tauri", "resources", "tools"],
   root ++ ["..", "resources", "tools"]]

/-- Mirrors `Orchestrator::weed_candidates`: the explicit configured path (only if it
exists), then — inside the loop over the tools directories — each
directory's `weed.exe` and `weed` variants followed by the user-override
path `FACEFORGE_HOME/tools/weed.exe`, which is pushed once per iteration. -/
def weed_candidates (root : Path) (s : WizardSettings) (fs : Path → Bool) :
    List Path :=
  (match s.seaweed_weed_path with
   | some p => if fs p then [p] else []
   | none => []) ++
  (tools_dirs root).flatMap (fun t =>
    [t ++ ["weed.exe"], t ++ ["weed"], s.faceforge_home ++ ["tools", "weed.exe"]])

/-- Mirrors `Orchestrator::resolve_weed_path`: honor the explicit setting first, then
the first existing candidate. -/
def resolve_weed_path (root : Path) (s : WizardSettings) (fs : Path → Bool) :
    Option Path :=
  match s.seaweed_weed_path with
  | some p => if fs p then some p else (weed_candidates root s fs).find? fs
  | none => (weed_candidates root s fs).find? fs

/-- The log file and its single rotated backup (`log_path` and
`log_path.with_extension("log.1")`); `none` means the path does not exist,
a string stands for the file content, whose length is the metadata size. -/
structure LogFS where
  log : Option String
  backup : Option String
  deriving DecidableEq, Repr

/-- Mirrors `Orchestrator::prepare_log_file`: when the log exists and its size
strictly exceeds `max(max_log_size_mb,1)` MiB, the prior backup is removed
and the log renamed onto the backup path (remove/rename modelled as
succeeding); then the log path is opened in append mode, created empty when
absent. -/
def prepare_log_file (fs : LogFS) (max_log_size_mb : Nat) : LogFS :=
  let maxBytes := max max_log_size_mb 1 * 1024 * 1024
  let fs : LogFS :=
    match fs.log with
    | some c => if c.length > maxBytes then { log := none, backup := some c } else fs
    | none => fs
  match fs.log with
  | some _ => fs
  | none => { fs with log := some "" }

/-- Outcome of the 2-second readiness window after spawning SeaweedFS. -/
inductive ReadinessResult where
  | becameOpen
  | childExited
  | timedOut
  deriving DecidableEq, Repr

/-- Environment for one `start_seaweed_if_enabled` call: the leading
`try_wait` poll, path existence, the MZ-header check of the resolved
binary, `create_dir_all` outcomes, preflight port occupancy
(`tcp_port_open` on 127.0.0.1), log preparation, the spawn result and the
readiness-window outcome. -/
structure SeaweedStartEnv where
  seaweedPoll : PollResult
  fs : Path → Bool
  mzOk : Bool
  createDirOk : Bool
  portBusy : Nat → Bool
  prepareLogOk : Bool
  spawnResult : Option Nat
  readiness : ReadinessResult

/-- The four preflighted name/port pairs: the three hardcoded internal ports
and the configured external s3 port. -/
def seaweed_port_list (s3_port : Nat) : List (String × Nat) :=
  [("master", 9333), ("volume", 8080), ("filer", 8888), ("s3", s3_port)]

/-- The `name:port` conflict strings collected by the preflight loop. -/
def seaweed_conflicts (s3_port : Nat) (busy : Nat → Bool) : List String :=
  ((seaweed_port_list s3_port).filter (fun np => busy np.2)).map
    (fun np => np.1 ++ ":" ++ toString np.2)

/-- The fail-fast preflight message listing every conflicting pair. -/
def seaweed_conflict_message (s3_port : Nat) (busy : Nat → Bool) : String :=
  "SeaweedFS cannot start because these ports already have listeners: "
    ++ String.intercalate ", " (seaweed_conflicts s3_port busy)

/-- The binary-not-found message enumerating every candidate path. -/
def seaweed_not_found_message (root : Path) (s : WizardSettings)
    (fs : Path → Bool) : String :=
  "SeaweedFS enabled but weed binary was not found. Looked for: "
    ++ String.intercalate "; " ((weed_candidates root s fs).map Path.render)
    ++ ". Run scripts/ensure-seaweedfs.ps1 to download the official Windows x64 binary."

/-- The trailing `match result` block of `start_seaweed_if_enabled`: record
the attempt outcome into `last_seaweed_error` (`none` on success, the
message on failure) and propagate the result. -/
def record_seaweed_result (r : Orchestrator × Except String Unit) :
    Orchestrator × Except String Unit :=
  match r with
  | (o2, .ok u) => ({ o2 with last_seaweed_error := none }, .ok u)
  | (o2, .error e) => ({ o2 with last_seaweed_error := some e }, .error e)

/-- Mirrors `Orchestrator::start_seaweed_if_enabled`.  Early `Ok` when disabled or
already running (these paths do not touch `last_seaweed_error`); otherwise
the inner closure resolves the binary, checks its MZ header, requires the
s3 port, creates the data dir, preflights the four ports, prepares the log,
spawns, and runs the readiness window; the closure's result is recorded
into `last_seaweed_error` (`none` on success, the message on failure). -/
def start_seaweed_if_enabled (o : Orchestrator) (s : WizardSettings)
    (env : SeaweedStartEnv) : Orchestrator × Except String Unit :=
  if !s.seaweed_enabled then (o, .ok ()) else
  let p := is_seaweed_running o env.seaweedPoll
  if p.2 then (p.1, .ok ()) else
  let o := p.1
  let inner : Orchestrator × Except String Unit :=
    match resolve_weed_path o.repo_root s env.fs with
    | none => (o, .error (seaweed_not_found_message o.repo_root s env.fs))
    | some weed =>
      if !env.mzOk then
        (o, .error ("SeaweedFS weed binary at " ++ Path.render weed
          ++ " is not a valid Windows executable (missing MZ header)"))
      else
      match s.seaweed_s3_port with
      | none => (o, .error "SeaweedFS enabled but seaweed_s3_port not set")
      | some s3_port =>
        if !env.createDirOk then (o, .error "create_dir_all failed") else
        if !(seaweed_conflicts s3_port env.portBusy).isEmpty then
          (o, .error (seaweed_conflict_message s3_port env.portBusy))
        else
        if !env.prepareLogOk then (o, .error "prepare_log_file failed") else
        match env.spawnResult with
        | none =>
          (o, .error ("Failed to start SeaweedFS (weed=" ++ Path.render weed ++ ")"))
        | some pid =>
          let o2 := { o with seaweed_child := some pid }
          match env.readiness with
          | .becameOpen => (o2, .ok ())
          | .childExited =>
            ({ o2 with seaweed_child := none },
              .error "SeaweedFS exited immediately. Check logs at logs/seaweed.log")
          | .timedOut => (o2, .ok ())
  record_seaweed_result inner

/-- Mirrors `main.rs` `start_services` (orchestration part): auxiliary first, and the
`?` operator returns the auxiliary error before the primary start runs. -/
def start_services (o : Orchestrator) (s : WizardSettings)
    (envS : SeaweedStartEnv) (envC : CoreStartEnv) :
    Orchestrator × Except String Unit :=
  let p := start_seaweed_if_enabled o s envS
  match p.2 with
  | .error e => (p.1, .error e)
  | .ok _ => start_core p.1 envC

/-- Mirrors `orchestrator.rs` `ServiceStatus`. -/
structure ServiceStatus where
  core_running : Bool
  core_healthy : Bool
  core_url : String
  seaweed_enabled : Bool
  seaweed_running : Bool
  seaweed_s3_port : Option Nat
  seaweed_last_error : Option String
  deriving DecidableEq, Repr

/-- Mirrors `Orchestrator::status_snapshot`: recomputed on each call; the two
liveness checks may clear exited handles, `core_healthy` is supplied by the
caller, and `seaweed_last_error` is a read-only clone of the stored field. -/
def status_snapshot (o : Orchestrator) (s : WizardSettings)
    (core_healthy : Bool) (corePoll seaweedPoll : PollResult) :
    Orchestrator × ServiceStatus :=
  let p := is_core_running o corePoll
  let q := is_seaweed_running p.1 seaweedPoll
  (q.1,
   { core_running := p.2
     core_healthy := core_healthy
     core_url := "http://127.0.0.1:" ++ toString s.core_port
     seaweed_enabled := s.seaweed_enabled
     seaweed_running := q.2
     seaweed_s3_port := s.seaweed_s3_port
     seaweed_last_error := q.1.last_seaweed_error })

/-- Environment for one health tick: the leading poll, the embedded
`start_core` environment, the `core_healthy` probe result, the current
time in ms (elapsed(t0) = now - t0), and the discarded stop outcomes. -/
structure TickEnv where
  corePoll : PollResult
  startEnv : CoreStartEnv
  healthy : Bool
  now : Nat
  killOk : Bool
  waitOk : Bool
  deriving DecidableEq, Repr

/-- Result of a tick, instrumented with whether the tick performed an
automatic restart attempt (called `start_core` itself) and the backoff it
slept before the attempt, if any. -/
structure TickResult where
  state : Orchestrator
  restartAttempted : Bool
  sleptMs : Option Nat
  deriving DecidableEq, Repr

/-- Mirrors `Orchestrator::tick_health_and_maybe_restart`.  Absent process: when the
attempt counter is below 3, sleep the exponential backoff and call
`start_core`, incrementing the counter only if that start succeeded.
Present process: a 2 s grace period after the last start; then the health
probe — success resets the counter to 0; failure past 10 s since the last
start force-stops, restarts (result discarded), refreshes the start
timestamp and sets the counter to 1. -/
def tick_health_and_maybe_restart (o : Orchestrator) (env : TickEnv) :
    TickResult :=
  let p := is_core_running o env.corePoll
  let o := p.1
  if !p.2 then
    if o.core_restart_attempts < 3 then
      let slept := backoff_ms o.core_restart_attempts
      let q := start_core o env.startEnv
      match q.2 with
      | .ok _ =>
        ⟨{ q.1 with core_restart_attempts := q.1.core_restart_attempts + 1 },
          true, some slept⟩
      | .error _ => ⟨q.1, true, some slept⟩
    else ⟨o, false, none⟩
  else
    let inGrace : Bool :=
      match o.last_core_start with
      | some t0 => env.now - t0 < 2000
      | none => false
    if inGrace then ⟨o, false, none⟩ else
    if env.healthy then ⟨{ o with core_restart_attempts := 0 }, false, none⟩ else
    match o.last_core_start with
    | some t0 =>
      if env.now - t0 > 10000 then
        let o := stop_core o env.killOk env.waitOk
        let q := start_core o env.startEnv
        ⟨{ q.1 with last_core_start := some env.now, core_restart_attempts := 1 },
          true, none⟩
      else ⟨o, false, none⟩
    | none => ⟨o, false, none⟩

/-- The `auth` object of `config/core.json`, the only part
`read_install_token` inspects; the whole file is `Option`al (`none` =
missing or unparseable). -/
structure CoreJsonAuth where
  install_token : String
  deriving DecidableEq, Repr

/-- Rust `str::trim`: drop whitespace from both ends, modelled on the
character list so the kernel can evaluate it. -/
def rustTrim (s : String) : String :=
  String.mk (((s.data.dropWhile Char.isWhitespace).reverse.dropWhile
    Char.isWhitespace).reverse)

/-- Mirrors `settings.rs` `read_install_token`: read and parse `core.json`, trim the
token, and fail when the trimmed token is empty. -/
def read_install_token (file : Option CoreJsonAuth) : Except String String :=
  match file with
  | none => .error "read or parse failed"
  | some cfg =>
    let token := rustTrim cfg.install_token
    if token = "" then .error "install_token missing in core.json"
    else .ok token

/-- Mirrors `settings.rs` `write_core_json`, restricted to its token handling: keep
the readable existing token, otherwise use the freshly generated one
(`fresh` stands for `generate_install_token()`); the kept token is written
into the new file and returned. -/
def write_core_json (file : Option CoreJsonAuth) (fresh : String) :
    Option CoreJsonAuth × String :=
  let token :=
    match read_install_token file with
    | .ok t => t
    | .error _ => fresh
  (some { install_token := token }, token)

/-- The candidate order asserted by the spec for comparison with
`weed_candidates`: explicit path first (only if existing), then all fixed
tools directories with their filename variants, and only after all of
those the user-override location in the managed home. -/
def weed_candidates_spec_order (root : Path) (s : WizardSettings)
    (fs : Path → Bool) : List Path :=
  (match s.seaweed_weed_path with
   | some p => if fs p then [p] else []
   | none => []) ++
  ((tools_dirs root).flatMap (fun t => [t ++ ["weed.exe"], t ++ ["weed"]])) ++
  [s.faceforge_home ++ ["tools", "weed.exe"]]

/-- First existing candidate under the spec-asserted order. -/
def resolve_weed_path_spec_order (root : Path) (s : WizardSettings)
    (fs : Path → Bool) : Option Path :=
  (weed_candidates_spec_order root s fs).find? fs

/-- A freshly constructed orchestrator (`Orchestrator::new ["r"]`). -/
def sampleOrch : Orchestrator := ⟨["r"], none, none, none, none, 0⟩

/-- An orchestrator whose core (pid 1) and seaweed (pid 2) slots are
occupied. -/
def runningOrch : Orchestrator := ⟨["r"], some 1, some 2, none, some 0, 0⟩

/-- A core-start environment in which binary resolution fails (no venv and
no sidecar on disk), so `start_core` returns an error. -/
def failingCoreStartEnv : CoreStartEnv :=
  { corePoll := .stillRunning, writePortsOk := true, resolveOk := false
    prepareLogOk := true, spawnResult := none, now := 0 }

/-- A core-start environment in which everything succeeds; the spawn yields
pid 7. -/
def okCoreStartEnv : CoreStartEnv :=
  { corePoll := .stillRunning, writePortsOk := true, resolveOk := true
    prepareLogOk := true, spawnResult := some 7, now := 100 }

/-- A tick environment whose embedded core start always fails. -/
def failingTickEnv : TickEnv :=
  { corePoll := .stillRunning, startEnv := failingCoreStartEnv
    healthy := false, now := 0, killOk := true, waitOk := true }

/-- Wizard settings with SeaweedFS enabled on s3 port 43211 and no explicit
weed path; home directory `h`. -/
def sampleSettings : WizardSettings :=
  { faceforge_home := ["h"], core_port := 43210, seaweed_enabled := true
    seaweed_s3_port := some 43211, seaweed_weed_path := none
    max_log_size_mb := 10 }

/-- Wizard settings with an explicit weed path `w`. -/
def explicitWeedSettings : WizardSettings :=
  { faceforge_home := ["h"], core_port := 43210, seaweed_enabled := true
    seaweed_s3_port := some 43211, seaweed_weed_path := some ["w"]
    max_log_size_mb := 10 }

/-- A filesystem on which only the user-override `h/tools/weed.exe` and the
packaged-resources candidate exist. -/
def fsOverrideAndResources : Path → Bool := fun p =>
  p == ["h", "tools", "weed.exe"] ||
  p == ["r", "desktop", "src-tauri", "resources", "tools", "weed.exe"]

/-- A seaweed-start environment on an empty filesystem: the weed binary is
absent from every candidate path; everything else would succeed. -/
def noSeaweedBinaryEnv : SeaweedStartEnv :=
  { seaweedPoll := .stillRunning, fs := fun _ => false, mzOk := true
    createDirOk := true, portBusy := fun _ => false, prepareLogOk := true
    spawnResult := some 5, readiness := .becameOpen }

/-- A seaweed-start environment in which the explicit binary `w` exists and
port 8080 (the volume port) already has a listener. -/
def conflictSeaweedEnv : SeaweedStartEnv :=
  { seaweedPoll := .stillRunning, fs := fun p => p == ["w"], mzOk := true
    createDirOk := true, portBusy := fun p => p == 8080, prepareLogOk := true
    spawnResult := some 5, readiness := .becameOpen }

/-- A seaweed-start environment in which the explicit binary `w` exists, no
port is busy, and the spawn (pid 5) reaches readiness. -/
def okSeaweedEnv : SeaweedStartEnv :=
  { seaweedPoll := .stillRunning, fs := fun p => p == ["w"], mzOk := true
    createDirOk := true, portBusy := fun _ => false, prepareLogOk := true
    spawnResult := some 5, readiness := .becameOpen }

/-- A log content larger than the 1 MiB minimum rotation threshold. -/
def bigLog : String := String.mk (List.replicate 1100000 'a')

/-- Helper: when the recorded attempt result is an error, the stored
`last_seaweed_error` is exactly that message. -/
theorem record_seaweed_result_error (r : Orchestrator × Except String Unit)
    (o2 : Orchestrator) (e : String)
    (h : record_seaweed_result r = (o2, .error e)) :
    o2.last_seaweed_error = some e := by
  rcases r with ⟨o1, r1⟩
  cases r1 with
  | ok u => simp [record_seaweed_result] at h
  | error e1 =>
    simp [record_seaweed_result] at h
    rcases h with ⟨h1, h2⟩
    subst h2
    rw [← h1]

/-- Helper: when the recorded attempt result is a success, the stored
`last_seaweed_error` is cleared. -/
theorem record_seaweed_result_ok (r : Orchestrator × Except String Unit)
    (o2 : Orchestrator) (u : Unit)
    (h : record_seaweed_result r = (o2, .ok u)) :
    o2.last_seaweed_error = none := by
  rcases r with ⟨o1, r1⟩
  cases r1 with
  | ok u1 =>
    simp [record_seaweed_result] at h
    rw [← h]
  | error e1 => simp [record_seaweed_result] at h

/-- Claim C1.  The restart cap of 3 never engages: a failed automatic
restart attempt leaves the counter unchanged (only a successful one
increments it, and `start_core` itself resets the counter to 0 first).
Concretely, from a fresh orchestrator with the core absent and every spawn
failing, each tick performs a restart attempt and returns to the same state
with the counter still 0 — so after three failed automatic attempts the
fourth tick attempts yet another automatic restart, which the claim says
must not happen. -/
theorem C1_retry_unbounded_after_failures :
    ((tick_health_and_maybe_restart sampleOrch failingTickEnv).state = sampleOrch ∧
     (tick_health_and_maybe_restart sampleOrch failingTickEnv).restartAttempted = true) ∧
    (tick_health_and_maybe_restart
      (tick_health_and_maybe_restart
        (tick_health_and_maybe_restart
          (tick_health_and_maybe_restart sampleOrch failingTickEnv).state
          failingTickEnv).state
        failingTickEnv).state
      failingTickEnv).restartAttempted = true ∧
    (tick_health_and_maybe_restart
      (tick_health_and_maybe_restart
        (tick_health_and_maybe_restart sampleOrch failingTickEnv).state
        failingTickEnv).state
      failingTickEnv).state.core_restart_attempts = 0 := by
  decide

/-- Claim C3.  The backoff before an automatic restart attempt is
`500 * 2 ^ n` ms for attempt counters `n = 0, 1, 2` (500, 1000, 2000), is
monotonically non-decreasing in `n`, and is exactly what a tick with the
core process absent sleeps before its attempt. -/
theorem C3_backoff_exponential (n : Nat) (hn : n < 3) :
    backoff_ms n = 500 * 2 ^ n ∧
    (∀ m, m ≤ n → backoff_ms m ≤ backoff_ms n) ∧
    ∀ (o : Orchestrator) (env : TickEnv), o.core_child = none →
      o.core_restart_attempts = n →
      (tick_health_and_maybe_restart o env).sleptMs = some (backoff_ms n) := by
  refine ⟨?_, ?_, ?_⟩
  · interval_cases n <;> decide
  · intro m hm
    interval_cases n <;> interval_cases m <;> decide
  · intro o env hchild hatt
    subst hatt
    unfold tick_health_and_maybe_restart
    simp only [is_core_running, hchild, Bool.not_false, if_true]
    simp only [hn, if_true]
    cases hq : (start_core o env.startEnv).2 <;> simp [hq]

/-- Claim C3 witness: a tick on a concrete orchestrator with counter 2
sleeps `backoff_ms 2 = 2000` ms. -/
theorem C3_backoff_witness :
    (tick_health_and_maybe_restart
      { sampleOrch with core_restart_attempts := 2 } failingTickEnv).sleptMs
      = some (backoff_ms 2) ∧ backoff_ms 2 = 500 * 2 ^ 2 := by
  refine ⟨?_, (C3_backoff_exponential 2 (by decide)).1⟩
  exact (C3_backoff_exponential 2 (by decide)).2.2 _ failingTickEnv rfl rfl

/-- Claim C5.  `stop_core` and `stop_seaweed` return no error by type;
after either stop the slot is absent whatever the discarded kill/wait
outcomes were, and stopping an empty slot is a no-op; the stop touches
nothing but its slot. -/
theorem C5_stop_total_slot_absent (o : Orchestrator) (killOk waitOk : Bool) :
    (stop_core o killOk waitOk).core_child = none ∧
    (stop_seaweed o killOk waitOk).seaweed_child = none ∧
    (o.core_child = none → stop_core o killOk waitOk = o) ∧
    (o.seaweed_child = none → stop_seaweed o killOk waitOk = o) ∧
    (stop_core o killOk waitOk).last_seaweed_error = o.last_seaweed_error ∧
    (stop_core o killOk waitOk).core_restart_attempts = o.core_restart_attempts ∧
    (stop_core o killOk waitOk).seaweed_child = o.seaweed_child := by
  rcases o with ⟨rr, cc, sc, le, ls, ra⟩
  cases cc <;> cases sc <;> simp [stop_core, stop_seaweed]

/-- Claim C5 witness: stopping the running slots empties them; stopping the
fresh orchestrator's empty slots is a no-op, even with failing kill/wait. -/
theorem C5_stop_witness :
    (stop_core runningOrch false false).core_child = none ∧
    stop_core sampleOrch false false = sampleOrch := by
  exact ⟨(C5_stop_total_slot_absent runningOrch false false).1,
    (C5_stop_total_slot_absent sampleOrch false false).2.2.1 rfl⟩

/-- Claim C8 counterexample.  On a filesystem holding the weed binary both
at the user-override location `h/tools/weed.exe` and in the fixed
packaged-resources tools directory, the code resolves to the user override,
while the claimed priority order (user override only after all fixed tools
directories) resolves to the resources directory. -/
theorem C8_counterexample_interleaved :
    resolve_weed_path ["r"] sampleSettings fsOverrideAndResources
      = some ["h", "tools", "weed.exe"] ∧
    resolve_weed_path_spec_order ["r"] sampleSettings fsOverrideAndResources
      = some ["r", "desktop", "src-tauri", "resources", "tools", "weed.exe"] ∧
    (["h", "tools", "weed.exe"] : Path)
      ≠ ["r", "desktop", "src-tauri", "resources", "tools", "weed.exe"] := by
  decide

/-- Claim C8 as amended.  The candidate order is: the explicit configured
path (only if it exists); then, for each fixed tools directory in order
(install root, packaged-resources-relative, dev-layout-relative), that
directory's `weed.exe` and `weed` variants followed immediately by the
user-override location in the managed home — the override is interleaved
after every tools directory rather than coming only after all of them.
The resolver returns the first existing path of that list. -/
theorem C8_amended_candidate_order (root : Path) (s : WizardSettings)
    (fs : Path → Bool) :
    weed_candidates root s fs =
      (match s.seaweed_weed_path with
       | some p => if fs p then [p] else []
       | none => []) ++
      [root ++ ["tools", "weed.exe"], root ++ ["tools", "weed"],
       s.faceforge_home ++ ["tools", "weed.exe"],
       root ++ ["desktop", "src-tauri", "resources", "tools", "weed.exe"],
       root ++ ["desktop", "src-tauri", "resources", "tools", "weed"],
       s.faceforge_home ++ ["tools", "weed.exe"],
       root ++ ["..", "resources", "tools", "weed.exe"],
       root ++ ["..", "resources", "tools", "weed"],
       s.faceforge_home ++ ["tools", "weed.exe"]] ∧
    resolve_weed_path root s fs = (weed_candidates root s fs).find? fs := by
  constructor
  · simp [weed_candidates, tools_dirs]
  · unfold resolve_weed_path
    cases hp : s.seaweed_weed_path with
    | none => rfl
    | some p =>
      by_cases hf : fs p
      · simp [weed_candidates, hp, hf]
      · simp [weed_candidates, hp, hf]

/-- Claim C10 counterexample.  A `core.json` whose install token is the
non-empty string `" abc "` is not preserved verbatim: `write_core_json`
returns and writes back the trimmed token `"abc"`. -/
theorem C10_counterexample_trim :
    (write_core_json (some ⟨" abc "⟩) "fresh").2 = "abc" ∧
    (write_core_json (some ⟨" abc "⟩) "fresh").1 = some ⟨"abc"⟩ ∧
    (" abc " : String) ≠ "" ∧ (" abc " : String) ≠ "abc" := by
  decide

/-- Claim C10 as amended.  `write_core_json` preserves an existing install
token up to whitespace trimming: when the stored token is non-empty after
trimming, the trimmed token is returned and written back; a fresh token is
used exactly when `core.json` is unreadable/unparseable or the trimmed
token is empty. -/
theorem C10_amended_token_preserved (file : Option CoreJsonAuth)
    (fresh : String) :
    (∀ cfg, file = some cfg → rustTrim cfg.install_token ≠ "" →
      write_core_json file fresh =
        (some ⟨rustTrim cfg.install_token⟩, rustTrim cfg.install_token)) ∧
    (file = none → write_core_json file fresh = (some ⟨fresh⟩, fresh)) ∧
    (∀ cfg, file = some cfg → rustTrim cfg.install_token = "" →
      write_core_json file fresh = (some ⟨fresh⟩, fresh)) := by
  refine ⟨?_, ?_, ?_⟩
  · intro cfg hfile htrim
    subst hfile
    simp [write_core_json, read_install_token, htrim]
  · intro hfile
    subst hfile
    simp [write_core_json, read_install_token]
  · intro cfg hfile htrim
    subst hfile
    simp [write_core_json, read_install_token, htrim]

/-- Claim C10 witness: a token that is already trimmed is preserved exactly;
a missing file yields the fresh token. -/
theorem C10_amended_witness :
    write_core_json (some ⟨"tok123"⟩) "fresh" = (some ⟨"tok123"⟩, "tok123") ∧
    write_core_json none "fresh" = (some ⟨"fresh"⟩, "fresh") := by
  constructor
  · have h := (C10_amended_token_preserved (some ⟨"tok123"⟩) "fresh").1
      ⟨"tok123"⟩ rfl (by decide)
    simpa using h
  · exact (C10_amended_token_preserved none "fresh").2.1 rfl

/-- Claim C2 counterexample.  With SeaweedFS enabled and its binary absent
from every candidate path, `start_services` returns the binary-not-found
error and the primary is NOT attempted: even though the core spawn
environment would succeed (pid 7), the core slot and start timestamp are
untouched, because the `?` on the auxiliary start returns first. -/
theorem C2_counterexample_primary_not_started :
    (start_services sampleOrch sampleSettings noSeaweedBinaryEnv okCoreStartEnv).2
      = .error (seaweed_not_found_message ["r"] sampleSettings noSeaweedBinaryEnv.fs) ∧
    (start_services sampleOrch sampleSettings noSeaweedBinaryEnv okCoreStartEnv).1.core_child
      = none ∧
    (start_services sampleOrch sampleSettings noSeaweedBinaryEnv okCoreStartEnv).1.last_core_start
      = none ∧
    okCoreStartEnv.spawnResult = some 7 := by
  exact ⟨rfl, rfl, rfl, rfl⟩

/-- Claim C2 as amended.  With the auxiliary enabled, not already running,
and its binary absent from all candidate paths, `start()` returns the
binary-not-found failure and the primary start step does not run: the
auxiliary failure short-circuits `start_services`, leaving the primary
slot, its start timestamp and the restart counter unchanged. -/
theorem C2_amended_aux_failure_blocks_primary (o : Orchestrator)
    (s : WizardSettings) (envS : SeaweedStartEnv) (envC : CoreStartEnv)
    (hen : s.seaweed_enabled = true) (hch : o.seaweed_child = none)
    (hres : resolve_weed_path o.repo_root s envS.fs = none) :
    (start_services o s envS envC).2
      = .error (seaweed_not_found_message o.repo_root s envS.fs) ∧
    (start_services o s envS envC).1.core_child = o.core_child ∧
    (start_services o s envS envC).1.last_core_start = o.last_core_start ∧
    (start_services o s envS envC).1.core_restart_attempts
      = o.core_restart_attempts := by
  have hsw : start_seaweed_if_enabled o s envS =
      ({ o with last_seaweed_error := some (seaweed_not_found_message o.repo_root s envS.fs) },
        .error (seaweed_not_found_message o.repo_root s envS.fs)) := by
    unfold start_seaweed_if_enabled
    simp [hen, is_seaweed_running, hch, hres, record_seaweed_result]
  unfold start_services
  rw [hsw]
  exact ⟨rfl, rfl, rfl, rfl⟩

/-- Claim C2 witness for the amended theorem, at the concrete
counterexample inputs. -/
theorem C2_amended_witness :
    (start_services sampleOrch sampleSettings noSeaweedBinaryEnv
      okCoreStartEnv).1.core_child = none := by
  have h := C2_amended_aux_failure_blocks_primary sampleOrch sampleSettings
    noSeaweedBinaryEnv okCoreStartEnv rfl rfl (by decide)
  exact h.2.1.trans rfl

/-- Claim C4.  Starting a service whose process handle is currently alive
is a no-op: `start_core` and (with the auxiliary enabled)
`start_seaweed_if_enabled` return success with the whole state — in
particular the stored handle — unchanged, and no second process is
spawned. -/
theorem C4_start_idempotent_on_running_slot (o : Orchestrator)
    (s : WizardSettings) (envC : CoreStartEnv) (envS : SeaweedStartEnv)
    (pid qid : Nat)
    (hc : o.core_child = some pid) (hpc : envC.corePoll = .stillRunning)
    (hen : s.seaweed_enabled = true) (hs : o.seaweed_child = some qid)
    (hps : envS.seaweedPoll = .stillRunning) :
    start_core o envC = (o, .ok ()) ∧
    start_seaweed_if_enabled o s envS = (o, .ok ()) := by
  constructor
  · unfold start_core
    simp [is_core_running, hc, hpc]
  · unfold start_seaweed_if_enabled
    simp [is_seaweed_running, hs, hps, hen]

/-- Claim C4 witness: repeated start on the concrete running orchestrator
(core pid 1, seaweed pid 2) changes nothing and reports success. -/
theorem C4_start_idempotent_witness :
    start_core runningOrch okCoreStartEnv = (runningOrch, .ok ()) ∧
    start_seaweed_if_enabled runningOrch sampleSettings okSeaweedEnv
      = (runningOrch, .ok ()) := by
  exact C4_start_idempotent_on_running_slot runningOrch sampleSettings
    okCoreStartEnv okSeaweedEnv 1 2 rfl rfl rfl rfl rfl

/-- Claim C6.  When an auxiliary start attempt reaches the port preflight
(enabled, slot empty, binary resolved and MZ-valid, s3 port configured,
data dir created) and at least one of the four designated ports already
accepts a TCP connection, the start fails with the message listing every
conflicting `name:port` pair, no process is spawned, and the auxiliary
handle remains absent. -/
theorem C6_preflight_rejects_conflicts (o : Orchestrator)
    (s : WizardSettings) (env : SeaweedStartEnv) (s3 : Nat) (weed : Path)
    (hen : s.seaweed_enabled = true) (hch : o.seaweed_child = none)
    (hres : resolve_weed_path o.repo_root s env.fs = some weed)
    (hmz : env.mzOk = true) (hs3 : s.seaweed_s3_port = some s3)
    (hdir : env.createDirOk = true)
    (hbusy : ∃ np ∈ seaweed_port_list s3, env.portBusy np.2 = true) :
    start_seaweed_if_enabled o s env =
      ({ o with last_seaweed_error := some (seaweed_conflict_message s3 env.portBusy) },
        .error (seaweed_conflict_message s3 env.portBusy)) ∧
    (start_seaweed_if_enabled o s env).1.seaweed_child = none := by
  have hconf : (seaweed_conflicts s3 env.portBusy).isEmpty = false := by
    obtain ⟨np, hmem, hb⟩ := hbusy
    have hmemf : np ∈ (seaweed_port_list s3).filter
        (fun np => env.portBusy np.2) :=
      List.mem_filter.2 ⟨hmem, hb⟩
    have : (np.1 ++ ":" ++ toString np.2) ∈ seaweed_conflicts s3 env.portBusy :=
      List.mem_map_of_mem _ hmemf
    cases hcl : seaweed_conflicts s3 env.portBusy with
    | nil => rw [hcl] at this; cases this
    | cons a l => rfl
  have hmain : start_seaweed_if_enabled o s env =
      ({ o with last_seaweed_error := some (seaweed_conflict_message s3 env.portBusy) },
        .error (seaweed_conflict_message s3 env.portBusy)) := by
    unfold start_seaweed_if_enabled
    simp [hen, is_seaweed_running, hch, hres, hmz, hs3, hdir, hconf,
      record_seaweed_result]
  refine ⟨hmain, ?_⟩
  rw [hmain]
  exact hch

/-- Claim C6 witness: with the explicit binary `w` present and port 8080
busy, the start fails listing exactly `volume:8080` and the slot stays
empty. -/
theorem C6_preflight_witness :
    (start_seaweed_if_enabled sampleOrch explicitWeedSettings
      conflictSeaweedEnv).1.seaweed_child = none ∧
    seaweed_conflict_message 43211 conflictSeaweedEnv.portBusy
      = "SeaweedFS cannot start because these ports already have listeners: volume:8080" := by
  refine ⟨?_, by decide⟩
  exact (C6_preflight_rejects_conflicts sampleOrch explicitWeedSettings
    conflictSeaweedEnv 43211 ["w"] rfl rfl (by decide) rfl rfl rfl
    ⟨("volume", 8080), by decide, rfl⟩).2

/-- Claim C7.  `prepare_log_file` with threshold `max(mb,1)` MiB: a log
strictly above the threshold is renamed onto the single backup slot
(overwriting any prior backup) and a fresh empty log is created; a log at
or below the threshold is opened in append mode untouched; a missing log
is created empty; and the operation is idempotent, so repeating it never
leaves more than the one backup generation. -/
theorem C7_log_rotation (fs : LogFS) (mb : Nat) :
    (∀ c, fs.log = some c → c.length > max mb 1 * 1024 * 1024 →
      prepare_log_file fs mb = ⟨some "", some c⟩) ∧
    (∀ c, fs.log = some c → ¬ c.length > max mb 1 * 1024 * 1024 →
      prepare_log_file fs mb = ⟨some c, fs.backup⟩) ∧
    (fs.log = none → prepare_log_file fs mb = ⟨some "", fs.backup⟩) ∧
    prepare_log_file (prepare_log_file fs mb) mb = prepare_log_file fs mb := by
  rcases fs with ⟨lg, bk⟩
  refine ⟨?_, ?_, ?_, ?_⟩
  · intro c hc hlen
    subst hc
    simp [prepare_log_file, hlen]
  · intro c hc hlen
    subst hc
    simp [prepare_log_file, hlen]
  · intro hc
    subst hc
    simp [prepare_log_file]
  · cases lg with
    | none => simp [prepare_log_file]
    | some c =>
      by_cases hlen : c.length > max mb 1 * 1024 * 1024
      · simp [prepare_log_file, hlen]
      · simp [prepare_log_file, hlen]

/-- Claim C7 witness: a 1100000-byte log with a 1 MiB threshold rotates
onto the backup and leaves a fresh empty log; a missing log is created
empty with the prior backup intact. -/
theorem C7_log_rotation_witness :
    prepare_log_file ⟨some bigLog, some "old"⟩ 1 = ⟨some "", some bigLog⟩ ∧
    prepare_log_file ⟨none, some "old"⟩ 1 = ⟨some "", some "old"⟩ := by
  have hlen : bigLog.length > max 1 1 * 1024 * 1024 := by
    have h1 : bigLog.length = 1100000 := by
      show (String.mk (List.replicate 1100000 'a')).length = 1100000
      rw [String.length_mk, List.length_replicate]
    rw [h1]
    norm_num
  exact ⟨(C7_log_rotation ⟨some bigLog, some "old"⟩ 1).1 bigLog rfl hlen,
    (C7_log_rotation ⟨none, some "old"⟩ 1).2.2.1 rfl⟩

/-- Claim C9.  The auxiliary-error field lifecycle: a failed start attempt
records its message into `last_seaweed_error`, every status snapshot
returns that stored value and leaves it unchanged (status never mutates
the field), an executed successful start attempt clears it to `none`, and
a disabled-service start leaves the whole state untouched. -/
theorem C9_seaweed_error_lifecycle (o : Orchestrator) (s : WizardSettings)
    (env : SeaweedStartEnv) (ch : Bool) (cp sp : PollResult) :
    (∀ o2 e, start_seaweed_if_enabled o s env = (o2, .error e) →
      o2.last_seaweed_error = some e) ∧
    ((status_snapshot o s ch cp sp).2.seaweed_last_error
        = o.last_seaweed_error ∧
      (status_snapshot o s ch cp sp).1.last_seaweed_error
        = o.last_seaweed_error) ∧
    (∀ o2, s.seaweed_enabled = true → o.seaweed_child = none →
      start_seaweed_if_enabled o s env = (o2, .ok ()) →
      o2.last_seaweed_error = none) ∧
    (s.seaweed_enabled = false →
      start_seaweed_if_enabled o s env = (o, .ok ())) := by
  refine ⟨?_, ?_, ?_, ?_⟩
  · intro o2 e h
    unfold start_seaweed_if_enabled at h
    by_cases hen : s.seaweed_enabled
    · simp only [hen, Bool.not_true, Bool.false_eq_true, if_false] at h
      by_cases hrun : (is_seaweed_running o env.seaweedPoll).2
      · rw [if_pos hrun] at h
        cases h
      · rw [if_neg hrun] at h
        exact record_seaweed_result_error _ _ _ h
    · simp only [Bool.not_eq_true] at hen
      simp only [hen, Bool.not_false, if_true] at h
      cases h
  · rcases o with ⟨rr, cc, sc, le, ls, ra⟩
    cases cc <;> cases sc <;> cases cp <;> cases sp <;>
      simp [status_snapshot, is_core_running, is_seaweed_running]
  · intro o2 hen hch h
    unfold start_seaweed_if_enabled at h
    simp only [hen, Bool.not_true, Bool.false_eq_true, if_false] at h
    simp only [is_seaweed_running, hch] at h
    exact record_seaweed_result_ok _ _ _ h
  · intro hen
    unfold start_seaweed_if_enabled
    simp [hen]

/-- Claim C9 witness: a stored error string appears verbatim in the status
snapshot and survives it; a concrete successful executed attempt clears
the field. -/
theorem C9_seaweed_error_witness :
    (status_snapshot { sampleOrch with last_seaweed_error := some "boom" }
      sampleSettings false .stillRunning .stillRunning).2.seaweed_last_error
      = some "boom" ∧
    (start_seaweed_if_enabled sampleOrch explicitWeedSettings
      okSeaweedEnv).1.last_seaweed_error = none := by
  constructor
  · exact (C9_seaweed_error_lifecycle
      { sampleOrch with last_seaweed_error := some "boom" }
      sampleSettings okSeaweedEnv false .stillRunning .stillRunning).2.1.1
  · exact (C9_seaweed_error_lifecycle sampleOrch explicitWeedSettings
      okSeaweedEnv false .stillRunning .stillRunning).2.2.1
      (start_seaweed_if_enabled sampleOrch explicitWeedSettings okSeaweedEnv).1
      rfl rfl rfl

end FaceForge
